import Mathlib

/-!
Verification of the form-state reconciliation engine of this repository.

The development shallowly embeds the TypeScript sources:
- src/packages/ui/src/utilities/buildFormState.ts
  (getFieldSchemaMap, buildFormStateHandler, buildFormState)
- src/unnamed/part_001 (the blocks field client component: addRow,
  hasMaxRows, minRows, editingDefaultLocale, memoizedValidate)

JavaScript maps and plain objects are embedded as association lists over
String keys; optional or possibly-undefined values are Option; JavaScript
truthiness of numbers is made explicit (zero is falsy). External
collaborators (the database, i18n, the rendering layer) are parameters.
-/

/-- Lookup in an association list, mirroring Map.get and object property
access on string keys. -/
def lookupEntry {α : Type} (m : List (String × α)) (k : String) : Option α :=
  match m with
  | [] => none
  | (key, v) :: rest => if key = k then some v else lookupEntry rest k

/-- Overwrite-or-append in an association list, mirroring Map.set and
object property assignment. -/
def setEntry {α : Type} (m : List (String × α)) (k : String) (v : α) :
    List (String × α) :=
  match m with
  | [] => [(k, v)]
  | (key, w) :: rest =>
      if key = k then (k, v) :: rest else (key, w) :: setEntry rest k v

/-! ## Blocks field component (src/unnamed/part_001) -/

/-- One element of the data array handled by the blocks field:
source builds a new row as an object with an id (uuid) and a blockType. -/
structure BlockRowData where
  id : String
  blockType : String
  deriving DecidableEq

/-- The data array the blocks field component hands to addFieldRow.
Source (part_001, addRow): the new row object is spread onto the end of
currentData, the incoming rowIndex is used only for scrolling afterwards
(the source carries a TODO comment about using the rowIndex for
insertion). -/
def addRowData (currentData : List BlockRowData) (newRow : BlockRowData)
    (rowIndex : Nat) : List BlockRowData :=
  currentData ++ [newRow]

/-- Source (part_001): hasMaxRows is the JavaScript truthiness of
maxRows conjoined with rows.length being at least maxRows; an absent or
zero maxRows is falsy. -/
def hasMaxRows (maxRows : Option Nat) (rowsLength : Nat) : Bool :=
  match maxRows with
  | none => false
  | some m => (m != 0) && decide (m ≤ rowsLength)

/-- Source (part_001, the closing fragment of the component): the add-row
drawer toggler and button render only when the field is not disabled and
hasMaxRows does not hold. -/
def showAddRowControls (disabled : Bool) (maxRows : Option Nat)
    (rowsLength : Nat) : Bool :=
  !disabled && !(hasMaxRows maxRows rowsLength)

/-- Source (part_001): minRows clamps to 1 or 0 — the parenthesised
expression evaluates the nullish coalescing of minRowsProp with required
first and then uses mere truthiness of the result, so a configured
nonzero minRowsProp always yields 1. -/
def minRows (minRowsProp : Option Nat) (required : Bool) : Nat :=
  if (match minRowsProp with
      | some m => m != 0
      | none => required) then 1 else 0

/-- The options object the blocks field passes to its validate function:
the incoming options spread with maxRows, minRows and required overridden.
External context entries of the spread (siblingData, operation) are
orthogonal to the claims and omitted. -/
structure ValidateOptions where
  maxRows : Option Nat
  minRows : Nat
  required : Bool
  deriving DecidableEq

/-- A field validation result: the JavaScript convention of true for
valid or a string error message. -/
inductive ValidationResult where
  | valid
  | message (text : String)
  deriving DecidableEq

/-- Localization section of the config consumed by the component. -/
structure LocalizationConfig where
  fallback : Bool
  defaultLocale : String
  deriving DecidableEq

/-- Source (part_001): editingDefaultLocale is the immediately invoked
closure — when localization is configured with fallback, it compares the
current locale against the configured default locale (empty string being
falsy, the default is the literal en); otherwise it is true. -/
def editingDefaultLocale (localization : Option LocalizationConfig)
    (locale : String) : Bool :=
  match localization with
  | some cfg =>
      if cfg.fallback then
        locale == (if cfg.defaultLocale == "" then "en" else cfg.defaultLocale)
      else true
  | none => true

/-- Source (part_001): memoizedValidate returns true when not editing the
default locale and the value is null; otherwise it calls validate (when
it is a function) with the overridden options, and returns undefined
(none) when validate is not a function. The field value of a blocks
field is a row count (useField at type number); null is none. -/
def memoizedValidate (editingDefault : Bool)
    (validate : Option (Option Nat → ValidateOptions → ValidationResult))
    (maxRows : Option Nat) (minRowsValue : Nat) (required : Bool)
    (value : Option Nat) : Option ValidationResult :=
  if !editingDefault && value.isNone then some .valid
  else
    match validate with
    | some f => some (f value ⟨maxRows, minRowsValue, required⟩)
    | none => none

/-- The blocks field validation pipeline as assembled by the component:
memoizedValidate applied to the computed editingDefaultLocale and the
clamped minRows. -/
def blocksFieldValidate (localization : Option LocalizationConfig)
    (locale : String)
    (validate : Option (Option Nat → ValidateOptions → ValidationResult))
    (maxRows : Option Nat) (minRowsProp : Option Nat) (required : Bool)
    (value : Option Nat) : Option ValidationResult :=
  memoizedValidate (editingDefaultLocale localization locale) validate
    maxRows (minRows minRowsProp required) required value

/-- Probe validator reporting whether it received minRows equal to 5. -/
def minRowsProbe : Option Nat → ValidateOptions → ValidationResult :=
  fun _ options =>
    if options.minRows == 5 then .valid else .message "minRows is not 5"

/-! ## buildFormState (src/packages/ui/src/utilities/buildFormState.ts) -/

/-- One entry of a flat form state: the slice of the FieldState record the
claims touch (value, requiresRender generation marker, schemaPath). -/
structure FieldState where
  value : Option String
  requiresRender : Bool
  schemaPath : List String
  deriving DecidableEq

/-- Form state: flat mapping from data-path string to FieldState. -/
abbrev FormState := List (String × FieldState)

/-- One entry of the field schema map: the slice of a field or entity
config the handler inspects — whether a type property is present (entity
configs have none) and the number of subfields (none when no fields
property exists). -/
structure FieldDef where
  fieldType : Option String
  fields : Option Nat
  deriving DecidableEq

/-- Source (buildFormState.ts, getFieldSchemaMap): outside development
mode the schema map is cached under the key collectionSlug or globalSlug
(first truthy); a cache hit returns the cached map unchanged, a miss
builds via buildFieldSchemaMap (a parameter here, taking both slugs and
the locale context i18n) and stores the result. In development mode the
map is rebuilt on every call and the cache is untouched. Returns the map
together with the updated cache. -/
def getFieldSchemaMap (isDevelopment : Bool)
    (buildFieldSchemaMap :
      Option String → Option String → String → List (String × FieldDef))
    (cachedFieldMap : List (String × List (String × FieldDef)))
    (collectionSlug globalSlug : Option String) (locale : String) :
    List (String × FieldDef) × List (String × List (String × FieldDef)) :=
  let key := collectionSlug.getD (globalSlug.getD "")
  if !isDevelopment then
    match lookupEntry cachedFieldMap key with
    | some cached => (cached, cachedFieldMap)
    | none =>
        let built := buildFieldSchemaMap collectionSlug globalSlug locale
        (built, setEntry cachedFieldMap key built)
  else (buildFieldSchemaMap collectionSlug globalSlug locale, cachedFieldMap)

/-- A schema-map builder probe that records the locale context it was
called with as the single key of the map it produces. -/
def localeProbeBuild :
    Option String → Option String → String → List (String × FieldDef) :=
  fun _ _ locale => [(locale, ⟨none, some 1⟩)]

/-- Source (buildFormState.ts, lines 196 to 208): the schema paths
selected for rendering — all keys of the field schema map when
renderFields is set, otherwise the joined schemaPath of every incoming
form-state entry whose requiresRender flag is set, and empty with no
incoming form state. -/
def schemaPathsToRender (renderFields : Bool)
    (fieldSchemaMap : List (String × FieldDef))
    (formState : Option FormState) : List String :=
  if renderFields then fieldSchemaMap.map (fun entry => entry.1)
  else
    match formState with
    | some fs =>
        fs.filterMap (fun entry =>
          if entry.2.requiresRender then
            some (String.intercalate "." entry.2.schemaPath)
          else none)
    | none => []

/-- Source (buildFormState.ts, destructuring default): schemaPath
defaults to the singleton collectionSlug when present, else the singleton
globalSlug. -/
def schemaPathOrDefault (collectionSlug globalSlug : Option String)
    (schemaPathArg : Option (List String)) : List String :=
  match schemaPathArg with
  | some p => p
  | none =>
      match collectionSlug with
      | some c => [c]
      | none => [globalSlug.getD ""]

/-- Source (buildFormState.ts, lines 217 to 227): the config found in the
schema map has no usable subfields when the fields property is absent or
empty while a type property exists that is not blocks. -/
def hasNoSubfields (cfg : FieldDef) : Bool :=
  (match cfg.fields with
   | none => true
   | some n => n == 0)
  && cfg.fieldType.isSome && (cfg.fieldType != some "blocks")

/-- The exact message of the error thrown by buildFormState when the
requested schema path is absent from the field schema map. -/
def couldNotFindMsg (key : String) : String :=
  "Could not find \"" ++ key ++ "\" in the fieldSchemaMap"

/-- Outcome of the buildFormState body: a success result carrying the
state, or a thrown error carrying its message. -/
inductive BuildOutcome where
  | success (state : FormState)
  | thrown (message : String)
  deriving DecidableEq

/-- Source (buildFormState.ts, lines 268 to 273): when a collection slug
and an incoming form state are present, the collection has upload
configuration and the incoming state has a truthy file entry, that file
entry is written into the result state unchanged; in every other case
the result state is untouched. -/
def maintainUploadFileState (collectionSlug : Option String)
    (uploadEnabled : Bool) (formState : Option FormState)
    (result : FormState) : FormState :=
  match collectionSlug, formState with
  | some _, some fs =>
      if uploadEnabled then
        match lookupEntry fs "file" with
        | some fileState => setEntry result "file" fileState
        | none => result
      else result
  | _, _ => result

/-- Source (buildFormState.ts, buildFormState): the control flow of the
body on the slice the claims concern. Throws when neither slug is given;
resolves the (defaulted) schemaPath against the field schema map and
throws the could-not-find message when absent; throws when the resolved
config has no subfields; otherwise succeeds with the state produced by
fieldSchemasToFormState (a parameter here, it is defined in another
package) after the upload file entry is maintained. Component
attachment (attachComponentsToFormState) belongs to the rendering layer,
which the specification places out of scope, and adds no field values;
it is not part of this embedding. -/
def buildFormState (collectionSlug globalSlug : Option String)
    (schemaPathArg : Option (List String)) (formState : Option FormState)
    (fieldSchemaMap : List (String × FieldDef)) (uploadEnabled : Bool)
    (fieldSchemasToFormStateResult : FormState) : BuildOutcome :=
  if collectionSlug.isNone && globalSlug.isNone then
    .thrown "Either collectionSlug or globalSlug must be provided"
  else
    let schemaPath := schemaPathOrDefault collectionSlug globalSlug schemaPathArg
    let key := String.intercalate "." schemaPath
    match lookupEntry fieldSchemaMap key with
    | none => .thrown (couldNotFindMsg key)
    | some cfg =>
        if hasNoSubfields cfg then
          .thrown ("The field found in fieldSchemaMap for \"" ++ key
            ++ "\" does not contain any subfields.")
        else
          .success (maintainUploadFileState collectionSlug uploadEnabled
            formState fieldSchemasToFormStateResult)

/-- Source (buildFormState.ts, lines 106 to 137): the access section of
the handler. With an incoming user slug: the collection admin access
function decides when present, otherwise the slug must match the admin
user slug. With no incoming user: access passes exactly when the admin
user collection holds zero documents (the create-first-user case). -/
def accessCheck (incomingUserSlug : Option String) (adminUserSlug : String)
    (adminAccessResult : Option Bool) (usersCount : Nat) : Bool :=
  match incomingUserSlug with
  | some slug =>
      match adminAccessResult with
      | some canAccessAdmin => canAccessAdmin
      | none => adminUserSlug == slug
  | none => usersCount == 0

/-- Result of buildFormStateHandler: a success carrying the state, the
message-only error shape, a structured error result carrying messages,
or the null result. -/
inductive HandlerResult where
  | success (state : FormState)
  | messageOnly (message : String)
  | formattedError (messages : List String)
  | nullResult
  deriving DecidableEq

/-- Modelled from the spec: formatErrors is imported from the payload
package, whose source is not under src; per the specification the
top-level handler logs and returns a normalized error shape — a
structured error result carrying the error message. -/
def formatErrors (message : String) : List String := [message]

/-- Source (buildFormState.ts, catch block, lines 141 to 155): a caught
error with the literal message about a missing field schema yields the
message-only shape; the Unauthorized message yields null; everything
else is normalized by formatErrors. -/
def handleCaughtError (message : String) : HandlerResult :=
  if message == "Could not find field schema for given path" then
    .messageOnly message
  else if message == "Unauthorized" then .nullResult
  else .formattedError (formatErrors message)

/-- Lifts a buildFormState outcome into the handler result: successes
pass through, thrown messages go through the catch block. -/
def handleBuildResult (outcome : BuildOutcome) : HandlerResult :=
  match outcome with
  | .success st => .success st
  | .thrown msg => handleCaughtError msg

/-- Source (buildFormState.ts, buildFormStateHandler): run the access
section — a failed check throws Unauthorized, caught below — then run
buildFormState and catch whatever it throws. -/
def buildFormStateHandler (incomingUserSlug : Option String)
    (adminUserSlug : String) (adminAccessResult : Option Bool)
    (usersCount : Nat) (collectionSlug globalSlug : Option String)
    (schemaPathArg : Option (List String)) (formState : Option FormState)
    (fieldSchemaMap : List (String × FieldDef)) (uploadEnabled : Bool)
    (fieldSchemasToFormStateResult : FormState) : HandlerResult :=
  if !(accessCheck incomingUserSlug adminUserSlug adminAccessResult usersCount) then
    handleCaughtError "Unauthorized"
  else
    handleBuildResult (buildFormState collectionSlug globalSlug schemaPathArg
      formState fieldSchemaMap uploadEnabled fieldSchemasToFormStateResult)

/-! ## Helper lemmas -/

theorem lookupEntry_setEntry_self {α : Type} (m : List (String × α))
    (k : String) (v : α) : lookupEntry (setEntry m k v) k = some v := by
  induction m with
  | nil => simp [setEntry, lookupEntry]
  | cons hd tl ih =>
      by_cases h : hd.1 = k
      · simp [setEntry, lookupEntry, h]
      · simpa [setEntry, lookupEntry, h] using ih

theorem couldNotFindMsg_data (key : String) :
    (couldNotFindMsg key).data
      = ("Could not find \"".data ++ key.data)
          ++ "\" in the fieldSchemaMap".data := rfl

theorem couldNotFindMsg_take16 (key : String) :
    (couldNotFindMsg key).data.take 16 = "Could not find \"".data := by
  rw [couldNotFindMsg_data, List.append_assoc]
  have hlen : ("Could not find \"".data).length = 16 := by decide
  rw [← hlen, List.take_left]

theorem couldNotFindMsg_ne_sentinel (key : String) :
    couldNotFindMsg key ≠ "Could not find field schema for given path" := by
  intro h
  have h16 := couldNotFindMsg_take16 key
  rw [h] at h16
  exact absurd h16 (by decide)

theorem couldNotFindMsg_ne_unauthorized (key : String) :
    couldNotFindMsg key ≠ "Unauthorized" := by
  intro h
  have h16 := couldNotFindMsg_take16 key
  rw [h] at h16
  exact absurd h16 (by decide)

theorem filterMap_requiresRender (fs : FormState) :
    fs.filterMap (fun entry =>
        if entry.2.requiresRender then
          some (String.intercalate "." entry.2.schemaPath)
        else none)
      = (fs.filter (fun entry => entry.2.requiresRender)).map
          (fun entry => String.intercalate "." entry.2.schemaPath) := by
  induction fs with
  | nil => rfl
  | cons hd tl ih =>
      by_cases h : hd.2.requiresRender = true
      · simp [List.filterMap_cons, List.filter_cons, h, ih]
      · simp [List.filterMap_cons, List.filter_cons, h, ih]

/-! ## Claim theorems -/

/-- Claim C1: when the requested schemaPath is absent from the field
schema map (and the access section passes, with at least one slug
given), buildFormStateHandler returns the structured error result
carrying exactly the schema-resolution error message — never a success
state and never null. The thrown message differs from the literal the
catch block compares against, so the error is normalized by formatErrors,
which still carries the message to the caller. -/
theorem buildFormStateHandler_schema_resolution_error_surfaced
    (incomingUserSlug : Option String) (adminUserSlug : String)
    (adminAccessResult : Option Bool) (usersCount : Nat)
    (collectionSlug globalSlug : Option String)
    (schemaPathArg : Option (List String)) (formState : Option FormState)
    (fieldSchemaMap : List (String × FieldDef)) (uploadEnabled : Bool)
    (rest : FormState)
    (hAccess : accessCheck incomingUserSlug adminUserSlug adminAccessResult
      usersCount = true)
    (hSlug : collectionSlug.isSome ∨ globalSlug.isSome)
    (hMissing : lookupEntry fieldSchemaMap (String.intercalate "."
      (schemaPathOrDefault collectionSlug globalSlug schemaPathArg)) = none) :
    buildFormStateHandler incomingUserSlug adminUserSlug adminAccessResult
        usersCount collectionSlug globalSlug schemaPathArg formState
        fieldSchemaMap uploadEnabled rest
      = .formattedError [couldNotFindMsg (String.intercalate "."
          (schemaPathOrDefault collectionSlug globalSlug schemaPathArg))] := by
  have hslugs : (collectionSlug.isNone && globalSlug.isNone) = false := by
    rcases hSlug with h | h <;> cases collectionSlug <;> cases globalSlug
      <;> simp_all
  have hne1 : (couldNotFindMsg (String.intercalate "."
      (schemaPathOrDefault collectionSlug globalSlug schemaPathArg))
        == "Could not find field schema for given path") = false := by
    simpa using couldNotFindMsg_ne_sentinel _
  have hne2 : (couldNotFindMsg (String.intercalate "."
      (schemaPathOrDefault collectionSlug globalSlug schemaPathArg))
        == "Unauthorized") = false := by
    simpa using couldNotFindMsg_ne_unauthorized _
  simp [buildFormStateHandler, hAccess, buildFormState, hslugs, hMissing,
    handleBuildResult, handleCaughtError, formatErrors, hne1, hne2]

theorem buildFormStateHandler_schema_resolution_error_surfaced_witness :
    accessCheck (some "users") "users" none 0 = true
    ∧ lookupEntry ([] : List (String × FieldDef)) (String.intercalate "."
        (schemaPathOrDefault (some "posts") none none)) = none
    ∧ buildFormStateHandler (some "users") "users" none 0 (some "posts")
        none none none [] false []
      = .formattedError [couldNotFindMsg (String.intercalate "."
          (schemaPathOrDefault (some "posts") none none))] :=
  ⟨by decide, rfl,
    buildFormStateHandler_schema_resolution_error_surfaced (some "users")
      "users" none 0 (some "posts") none none none [] false []
      (by decide) (Or.inl rfl) rfl⟩

/-- Claim C2: the schema paths selected for rendering are exactly all
keys of the field schema map when renderFields holds, exactly the joined
schemaPaths of the incoming form-state entries flagged requiresRender
when it does not, and empty when no form state comes in. -/
theorem schemaPathsToRender_scope
    (fieldSchemaMap : List (String × FieldDef)) (fs : FormState)
    (anyState : Option FormState) :
    schemaPathsToRender true fieldSchemaMap anyState
        = fieldSchemaMap.map (fun entry => entry.1)
    ∧ schemaPathsToRender false fieldSchemaMap (some fs)
        = (fs.filter (fun entry => entry.2.requiresRender)).map
            (fun entry => String.intercalate "." entry.2.schemaPath)
    ∧ schemaPathsToRender false fieldSchemaMap none = [] := by
  refine ⟨rfl, ?_, rfl⟩
  simpa [schemaPathsToRender] using filterMap_requiresRender fs

/-- Claim C3: whenever the access section fails — any Unauthorized branch
of the handler — buildFormStateHandler returns the null result, which is
distinct from every thrown or structured error shape. -/
theorem buildFormStateHandler_unauthorized_null
    (incomingUserSlug : Option String) (adminUserSlug : String)
    (adminAccessResult : Option Bool) (usersCount : Nat)
    (collectionSlug globalSlug : Option String)
    (schemaPathArg : Option (List String)) (formState : Option FormState)
    (fieldSchemaMap : List (String × FieldDef)) (uploadEnabled : Bool)
    (rest : FormState)
    (hAccess : accessCheck incomingUserSlug adminUserSlug adminAccessResult
      usersCount = false) :
    buildFormStateHandler incomingUserSlug adminUserSlug adminAccessResult
        usersCount collectionSlug globalSlug schemaPathArg formState
        fieldSchemaMap uploadEnabled rest
      = .nullResult := by
  have hnull : handleCaughtError "Unauthorized" = HandlerResult.nullResult := by
    decide
  simp [buildFormStateHandler, hAccess, hnull]

theorem buildFormStateHandler_unauthorized_null_witness :
    buildFormStateHandler (some "users") "users" (some false) 0
        (some "posts") none none none [] false []
      = .nullResult :=
  buildFormStateHandler_unauthorized_null (some "users") "users"
    (some false) 0 (some "posts") none none none [] false [] rfl

/-- Claim C4 counterexample: outside development mode the cache key is
the slug alone. With a builder whose output records its locale context,
a first call for slug posts under locale en followed by a second call for
the same slug under locale es returns the map built for en — not the map
built for the second call's own locale context, refuting the claim. -/
theorem getFieldSchemaMap_locale_counterexample :
    (getFieldSchemaMap false localeProbeBuild
        (getFieldSchemaMap false localeProbeBuild [] (some "posts") none
          "en").2
        (some "posts") none "es").1
      ≠ localeProbeBuild (some "posts") none "es" := by decide

/-- Claim C4 amended: outside development mode the cached field schema
map is keyed by the collection-or-global slug only — after any first
call, a second call with the same slugs returns exactly the map the
first call produced, whatever locale context the second call carries. -/
theorem getFieldSchemaMap_cache_keyed_by_slug_only
    (build : Option String → Option String → String → List (String × FieldDef))
    (cache : List (String × List (String × FieldDef)))
    (collectionSlug globalSlug : Option String) (locale1 locale2 : String) :
    (getFieldSchemaMap false build
        (getFieldSchemaMap false build cache collectionSlug globalSlug
          locale1).2
        collectionSlug globalSlug locale2).1
      = (getFieldSchemaMap false build cache collectionSlug globalSlug
          locale1).1 := by
  cases h : lookupEntry cache (collectionSlug.getD (globalSlug.getD "")) with
  | some m => simp [getFieldSchemaMap, h]
  | none => simp [getFieldSchemaMap, h, lookupEntry_setEntry_self]

/-- Claim C5 (code bug exhibit): addRow appends the new row at the end of
the current data regardless of the insertion index — with rows r0, r1 and
insertion index 0 the result places the new row last, not first, contrary
to the stated insertion semantics acknowledged by the TODO in the source. -/
theorem addRowData_appends_regardless_of_index :
    addRowData [⟨"r0", "b"⟩, ⟨"r1", "b"⟩] ⟨"new", "b"⟩ 0
      = [⟨"r0", "b"⟩, ⟨"r1", "b"⟩, ⟨"new", "b"⟩]
    ∧ addRowData [⟨"r0", "b"⟩, ⟨"r1", "b"⟩] ⟨"new", "b"⟩ 0
      ≠ [⟨"new", "b"⟩, ⟨"r0", "b"⟩, ⟨"r1", "b"⟩] := by
  constructor
  · rfl
  · decide

/-- Claim C6 counterexample: with maxRows 2 and two rows present,
hasMaxRows holds, yet invoking addRow changes the data — a third row is
appended and no error of any kind is signalled, so the claim that the
state is left unchanged under a StateIndexError is false. -/
theorem hasMaxRows_addRow_counterexample :
    hasMaxRows (some 2) 2 = true
    ∧ addRowData [⟨"r0", "b"⟩, ⟨"r1", "b"⟩] ⟨"new", "b"⟩ 2
      ≠ [⟨"r0", "b"⟩, ⟨"r1", "b"⟩] := by
  constructor
  · rfl
  · decide

/-- Claim C6 amended: at or above maxRows the add-row controls are not
rendered (hasMaxRows gates the UI), but addRow itself performs no
max-rows check — if invoked it still appends the row; no error is
signalled. -/
theorem addRow_maxRows_ui_gate (disabled : Bool) (m : Nat)
    (rows : List BlockRowData) (newRow : BlockRowData) (i : Nat)
    (hm : hasMaxRows (some m) rows.length = true) :
    showAddRowControls disabled (some m) rows.length = false
    ∧ addRowData rows newRow i = rows ++ [newRow] := by
  constructor
  · simp [showAddRowControls, hm]
  · rfl

theorem addRow_maxRows_ui_gate_witness :
    showAddRowControls false (some 2)
        (([⟨"r0", "b"⟩, ⟨"r1", "b"⟩] : List BlockRowData).length) = false
    ∧ addRowData [⟨"r0", "b"⟩, ⟨"r1", "b"⟩] ⟨"new", "b"⟩ 2
      = [⟨"r0", "b"⟩, ⟨"r1", "b"⟩] ++ [⟨"new", "b"⟩] :=
  addRow_maxRows_ui_gate false 2 [⟨"r0", "b"⟩, ⟨"r1", "b"⟩] ⟨"new", "b"⟩ 2
    (by decide)

/-- Claim C7 counterexample: with a configured min-rows of 5 (required
false, editing the default locale, a non-null value), the validate
function is invoked with minRows 1, not the configured 5 — the probe
validator observes the discrepancy. -/
theorem blocksFieldValidate_minRows_counterexample :
    blocksFieldValidate none "en" (some minRowsProbe) (some 10) (some 5)
      false (some 3) = some (.message "minRows is not 5") := by
  rfl

/-- Claim C7 amended: the validate function receives the clamped minRows
value — 1 whenever the configured min-rows is nonzero or the field is
required, 0 otherwise — together with maxRows and required passed through
unchanged. -/
theorem blocksFieldValidate_minRows_clamped (locale : String)
    (f : Option Nat → ValidateOptions → ValidationResult)
    (maxRows : Option Nat) (minRowsProp : Option Nat) (required : Bool)
    (value : Option Nat) :
    blocksFieldValidate none locale (some f) maxRows minRowsProp required
      value = some (f value ⟨maxRows, minRows minRowsProp required, required⟩)
    ∧ ∀ m : Nat, m ≠ 0 → minRows (some m) required = 1 := by
  constructor
  · rfl
  · intro m hm
    simp [minRows, hm]

theorem blocksFieldValidate_minRows_clamped_witness :
    blocksFieldValidate none "en" (some minRowsProbe) (some 10) (some 5)
      false (some 3)
      = some (minRowsProbe (some 3) ⟨some 10, minRows (some 5) false, false⟩)
    ∧ minRows (some 5) false = 1 :=
  ⟨(blocksFieldValidate_minRows_clamped "en" minRowsProbe (some 10) (some 5)
      false (some 3)).1,
   (blocksFieldValidate_minRows_clamped "en" minRowsProbe (some 10) (some 5)
      false (some 3)).2 5 (by decide)⟩

/-- Claim C8: the null-value exemption is asymmetric across locales.
When locale fallback is configured and the editing locale differs from
the default locale, a null value validates to true regardless of the
validator and of required or min-rows; when editing the default locale,
a null value is passed straight to the underlying validator. -/
theorem blocksFieldValidate_locale_null_asymmetry
    (cfg : LocalizationConfig) (locale : String)
    (validate : Option (Option Nat → ValidateOptions → ValidationResult))
    (f : Option Nat → ValidateOptions → ValidationResult)
    (maxRows minRowsProp : Option Nat) (required : Bool)
    (hFallback : cfg.fallback = true)
    (hNotDefault :
      locale ≠ (if cfg.defaultLocale == "" then "en" else cfg.defaultLocale)) :
    blocksFieldValidate (some cfg) locale validate maxRows minRowsProp
      required none = some .valid
    ∧ blocksFieldValidate (some cfg)
        (if cfg.defaultLocale == "" then "en" else cfg.defaultLocale)
        (some f) maxRows minRowsProp required none
      = some (f none ⟨maxRows, minRows minRowsProp required, required⟩) := by
  constructor
  · have hed : editingDefaultLocale (some cfg) locale = false := by
      simp [editingDefaultLocale, hFallback]
      simpa using hNotDefault
    simp [blocksFieldValidate, memoizedValidate, hed]
  · simp [blocksFieldValidate, memoizedValidate, editingDefaultLocale,
      hFallback]

theorem blocksFieldValidate_locale_null_asymmetry_witness :
    blocksFieldValidate (some ⟨true, "en"⟩) "es" (some minRowsProbe)
      (some 10) (some 5) true none = some .valid
    ∧ blocksFieldValidate (some ⟨true, "en"⟩)
        (if ("en" : String) == "" then "en" else "en")
        (some minRowsProbe) (some 10) (some 5) true none
      = some (minRowsProbe none ⟨some 10, minRows (some 5) true, true⟩) :=
  blocksFieldValidate_locale_null_asymmetry ⟨true, "en"⟩ "es"
    (some minRowsProbe) minRowsProbe (some 10) (some 5) true rfl
    (by decide)

/-- Claim C9: with no authenticated user the handler proceeds to the
build phase exactly when the admin user collection holds zero documents;
with at least one user document it returns the null result whatever the
build-phase inputs are — universally quantifying the build parameters
captures that buildFormState is not consulted. -/
theorem buildFormStateHandler_no_user_first_user_gate
    (adminUserSlug : String) (adminAccessResult : Option Bool)
    (usersCount : Nat) (collectionSlug globalSlug : Option String)
    (schemaPathArg : Option (List String)) (formState : Option FormState)
    (fieldSchemaMap : List (String × FieldDef)) (uploadEnabled : Bool)
    (rest : FormState) :
    (usersCount = 0 →
      buildFormStateHandler none adminUserSlug adminAccessResult usersCount
          collectionSlug globalSlug schemaPathArg formState fieldSchemaMap
          uploadEnabled rest
        = handleBuildResult (buildFormState collectionSlug globalSlug
            schemaPathArg formState fieldSchemaMap uploadEnabled rest))
    ∧ (0 < usersCount →
      buildFormStateHandler none adminUserSlug adminAccessResult usersCount
          collectionSlug globalSlug schemaPathArg formState fieldSchemaMap
          uploadEnabled rest
        = .nullResult) := by
  constructor
  · intro h
    subst h
    simp [buildFormStateHandler, accessCheck]
  · intro h
    have hc : accessCheck none adminUserSlug adminAccessResult usersCount
        = false := by
      simp [accessCheck]
      omega
    have hnull : handleCaughtError "Unauthorized" = HandlerResult.nullResult := by
      decide
    simp [buildFormStateHandler, hc, hnull]

theorem buildFormStateHandler_no_user_first_user_gate_witness :
    buildFormStateHandler none "users" none 0 (some "posts") none none
        none [] false []
      = handleBuildResult (buildFormState (some "posts") none none none []
          false [])
    ∧ buildFormStateHandler none "users" none 1 (some "posts") none none
        none [] false []
      = .nullResult :=
  ⟨(buildFormStateHandler_no_user_first_user_gate "users" none 0
      (some "posts") none none none [] false []).1 rfl,
   (buildFormStateHandler_no_user_first_user_gate "users" none 1
      (some "posts") none none none [] false []).2 (by decide)⟩

/-- Claim C10: on a collection with upload configuration, when an
incoming form state carrying a file entry is supplied and buildFormState
succeeds, the file entry of the returned state is exactly the incoming
file entry. -/
theorem buildFormState_preserves_file_state
    (globalSlug : Option String) (collectionSlug : String)
    (schemaPathArg : Option (List String)) (fs : FormState)
    (fieldSchemaMap : List (String × FieldDef)) (rest : FormState)
    (fileState : FieldState) (st : FormState)
    (hFile : lookupEntry fs "file" = some fileState)
    (hRun : buildFormState (some collectionSlug) globalSlug schemaPathArg
      (some fs) fieldSchemaMap true rest = .success st) :
    lookupEntry st "file" = some fileState := by
  unfold buildFormState at hRun
  simp only [Option.isNone_some, Bool.false_and, Bool.false_eq_true,
    if_false] at hRun
  cases hkey : lookupEntry fieldSchemaMap (String.intercalate "."
      (schemaPathOrDefault (some collectionSlug) globalSlug schemaPathArg)) with
  | none =>
      rw [hkey] at hRun
      exact absurd hRun (by simp)
  | some cfg =>
      rw [hkey] at hRun
      by_cases hsub : hasNoSubfields cfg = true
      · simp [hsub] at hRun
      · simp only [hsub, Bool.false_eq_true, if_false,
          BuildOutcome.success.injEq] at hRun
        rw [← hRun]
        simp [maintainUploadFileState, hFile, lookupEntry_setEntry_self]

theorem buildFormState_preserves_file_state_witness :
    lookupEntry [("file", (⟨some "upload", false, ["file"]⟩ : FieldState))]
        "file" = some ⟨some "upload", false, ["file"]⟩ :=
  buildFormState_preserves_file_state none "posts" none
    [("file", ⟨some "upload", false, ["file"]⟩)]
    [("posts", ⟨none, some 1⟩)] []
    ⟨some "upload", false, ["file"]⟩
    [("file", ⟨some "upload", false, ["file"]⟩)]
    rfl rfl
